import Mathlib

/-!
Shallow embedding of the Portal event-processing core of the bridgev2
package (the portal source file). External collaborators (Matrix client
API, remote-network client, SQL store) are modelled by explicit call
results ("oracles") passed to each handler; handlers return the new store
state together with a trace of the calls they made, so that frame
conditions and call-order properties can be stated and proved.
-/

namespace Bridgev2

/-- Matrix event id (id.EventID). -/
abbrev EventID := String

/-- Matrix room id (id.RoomID). -/
abbrev RoomID := String

/-- Matrix user id (id.UserID). -/
abbrev UserID := String

/-- Remote-network message id (networkid.MessageID). -/
abbrev NetworkMessageID := String

/-- Remote-network message part id (networkid.PartID). -/
abbrev NetworkPartID := String

/-- Remote-network user id (networkid.UserID). -/
abbrev NetworkUserID := String

/-- Remote-network portal id (networkid.PortalID). -/
abbrev PortalID := String

/-- The 32-byte avatar digest ([32]byte). Only equality and the zero value
are used by the embedded code, so it is modelled as an abstract Nat with 0
as the zero digest. -/
abbrev AvatarHash := Nat

/-- database.Message row. Metadata is an opaque map in the source; only
the reserved sender_mxid key is ever read or written, so it is modelled
as a single optional field. -/
structure Message where
  rowID : Int
  id : NetworkMessageID
  partID : NetworkPartID
  mxid : EventID
  roomID : PortalID
  senderID : NetworkUserID
  timestamp : Nat
  relatesToRowID : Int
  senderMXID : Option UserID
deriving DecidableEq

/-- database.Reaction row. -/
structure Reaction where
  messageID : NetworkMessageID
  partID : NetworkPartID
  senderID : NetworkUserID
  emojiID : String
  mxid : EventID
deriving DecidableEq

/-- The message/reaction store backing Bridge.DB. -/
structure Database where
  messages : List Message
  reactions : List Reaction
deriving DecidableEq

/-- MessageQuery.GetPartByMXID: look up a message row by Matrix event id. -/
def GetPartByMXID (db : Database) (mxid : EventID) : Option Message :=
  db.messages.find? (fun m => m.mxid == mxid)

/-- ReactionQuery.GetByMXID: look up a reaction row by Matrix event id. -/
def GetReactionByMXID (db : Database) (mxid : EventID) : Option Reaction :=
  db.reactions.find? (fun r => r.mxid == mxid)

/-- MessageQuery.GetFirstPartByID: first stored part of a remote message id. -/
def GetFirstPartByID (db : Database) (i : NetworkMessageID) : Option Message :=
  db.messages.find? (fun m => m.id == i)

/-- networkid.MessageOptionalPartID. -/
structure MessageOptionalPartID where
  id : NetworkMessageID
  partID : Option NetworkPartID
deriving DecidableEq

/-- MessageQuery.GetFirstOrSpecificPartByID: the specific part when a part
id is given, else the first part of the message. -/
def GetFirstOrSpecificPartByID (db : Database) (key : MessageOptionalPartID) : Option Message :=
  match key.partID with
  | some p => db.messages.find? (fun m => m.id == key.id && m.partID == p)
  | none => db.messages.find? (fun m => m.id == key.id)

/-- The Matrix event types the portal code sends (event.Type values). -/
inductive EventType where
  | stateRoomName
  | stateTopic
  | stateRoomAvatar
  | stateBridge
  | stateHalfShotBridge
  | stateMember
  | message
  | redaction
deriving DecidableEq

/-- A Matrix API intent handle, identified by the user it acts as. The
source compares intents by identity (intent != portal.Bridge.Bot); the
embedding compares the acting user ids. -/
structure MatrixAPI where
  mxid : UserID
deriving DecidableEq

/-- Errors from Matrix API calls; Forbidden (mautrix.MForbidden) is kept
distinct because sendRoomMeta branches on it. -/
inductive MatrixErr where
  | forbidden
  | otherErr (msg : String)
deriving DecidableEq

/-- Result of a SendState / SendMessage call: the new event's id on success. -/
abbrev MatrixResult := Except MatrixErr EventID

/-- One SendState call as issued: which intent, room, event type and state
key; setBy records the fi.mau.bridge.set_by raw annotation when present. -/
structure SendStateCall where
  intent : MatrixAPI
  roomID : RoomID
  eventType : EventType
  stateKey : String
  setBy : Option UserID
deriving DecidableEq

/-- Result of Portal.sendRoomMeta: the returned bool plus the SendState
calls it issued, in order. -/
structure RoomMetaOutcome where
  ok : Bool
  calls : List SendStateCall
deriving DecidableEq

/-- Portal.sendRoomMeta. senderIntent is sender.IntentFor(portal) when a
Ghost sender was given, none otherwise (then the bridge bot is used); res1
is the outcome of the first SendState and res2 that of the bridge-bot
retry (consulted only when the retry runs). The retry branch hardcodes
event.StateRoomName and an empty state key, exactly as the source does. -/
def sendRoomMeta (mxid : RoomID) (bot : MatrixAPI) (senderIntent : Option MatrixAPI)
    (eventType : EventType) (stateKey : String) (res1 res2 : MatrixResult) : RoomMetaOutcome :=
  if mxid = "" then ⟨false, []⟩
  else
    let intent := match senderIntent with
      | some i => i
      | none => bot
    let call1 : SendStateCall := ⟨intent, mxid, eventType, stateKey, none⟩
    match res1 with
    | Except.error MatrixErr.forbidden =>
      if intent ≠ bot then
        let call2 : SendStateCall := ⟨bot, mxid, EventType.stateRoomName, "", some intent.mxid⟩
        match res2 with
        | Except.error _ => ⟨false, [call1, call2]⟩
        | Except.ok _ => ⟨true, [call1, call2]⟩
      else ⟨false, [call1]⟩
    | Except.error _ => ⟨false, [call1]⟩
    | Except.ok _ => ⟨true, [call1]⟩

/-- The portal fields read and written by the embedded code (a slice of
database.Portal plus the Bridge id used as the bridge-info state key). -/
structure PortalState where
  bridgeID : String
  id : PortalID
  mxid : RoomID
  name : String
  topic : String
  avatarID : String
  avatarMXC : String
  avatarHash : AvatarHash
  nameSet : Bool
  topicSet : Bool
  avatarSet : Bool
deriving DecidableEq

/-- Result of one info updater step: the new portal state, the SendState
calls issued, and the returned changed flag. -/
structure UpdateResult where
  portal : PortalState
  calls : List SendStateCall
  changed : Bool
deriving DecidableEq

/-- Portal.UpdateName. -/
def UpdateName (portal : PortalState) (bot : MatrixAPI) (senderIntent : Option MatrixAPI)
    (res1 res2 : MatrixResult) (name : String) : UpdateResult :=
  if portal.name = name ∧ (portal.nameSet ∨ portal.mxid = "") then ⟨portal, [], false⟩
  else
    let portal := { portal with name := name }
    let meta := sendRoomMeta portal.mxid bot senderIntent EventType.stateRoomName "" res1 res2
    ⟨{ portal with nameSet := meta.ok }, meta.calls, true⟩

/-- Portal.UpdateTopic. -/
def UpdateTopic (portal : PortalState) (bot : MatrixAPI) (senderIntent : Option MatrixAPI)
    (res1 res2 : MatrixResult) (topic : String) : UpdateResult :=
  if portal.topic = topic ∧ (portal.topicSet ∨ portal.mxid = "") then ⟨portal, [], false⟩
  else
    let portal := { portal with topic := topic }
    let meta := sendRoomMeta portal.mxid bot senderIntent EventType.stateTopic "" res1 res2
    ⟨{ portal with topicSet := meta.ok }, meta.calls, true⟩

/-- Avatar descriptor: id, remove flag; the Reupload closure is supplied
as an oracle result where UpdateAvatar is invoked. -/
structure Avatar where
  id : String
  remove : Bool
deriving DecidableEq

/-- Portal.UpdateAvatar. reupload is the outcome of Avatar.Reupload
(new mxc and hash); res1/res2 feed the sendRoomMeta call. -/
def UpdateAvatar (portal : PortalState) (bot : MatrixAPI) (senderIntent : Option MatrixAPI)
    (reupload : Except String (String × AvatarHash)) (res1 res2 : MatrixResult)
    (avatar : Avatar) : UpdateResult :=
  if portal.avatarID = avatar.id ∧ (portal.avatarSet ∨ portal.mxid = "") then ⟨portal, [], false⟩
  else
    let portal := { portal with avatarID := avatar.id }
    if avatar.remove then
      let portal := { portal with avatarMXC := "", avatarHash := 0 }
      let meta := sendRoomMeta portal.mxid bot senderIntent EventType.stateRoomAvatar "" res1 res2
      ⟨{ portal with avatarSet := meta.ok }, meta.calls, true⟩
    else
      match reupload with
      | Except.error _ => ⟨{ portal with avatarSet := false }, [], true⟩
      | Except.ok (newMXC, newHash) =>
        if newHash = portal.avatarHash then ⟨portal, [], true⟩
        else
          let portal := { portal with avatarMXC := newMXC, avatarHash := newHash }
          let meta := sendRoomMeta portal.mxid bot senderIntent EventType.stateRoomAvatar "" res1 res2
          ⟨{ portal with avatarSet := meta.ok }, meta.calls, true⟩

/-- Oracle results for all the external calls UpdateInfo may make. -/
structure InfoOracle where
  nameRes1 : MatrixResult
  nameRes2 : MatrixResult
  topicRes1 : MatrixResult
  topicRes2 : MatrixResult
  avatarReupload : Except String (String × AvatarHash)
  avatarRes1 : MatrixResult
  avatarRes2 : MatrixResult
  bridgeRes1 : MatrixResult
  bridgeRes2 : MatrixResult
  halfRes1 : MatrixResult
  halfRes2 : MatrixResult

/-- Portal.UpdateBridgeInfo: two sendRoomMeta calls (canonical m.bridge and
legacy uk.half-shot.bridge) with the bridge id as state key; nothing when
the room does not exist yet. -/
def UpdateBridgeInfo (portal : PortalState) (bot : MatrixAPI) (io : InfoOracle) :
    List SendStateCall :=
  if portal.mxid = "" then []
  else
    let stateKey := portal.bridgeID
    (sendRoomMeta portal.mxid bot none EventType.stateBridge stateKey
        io.bridgeRes1 io.bridgeRes2).calls ++
    (sendRoomMeta portal.mxid bot none EventType.stateHalfShotBridge stateKey
        io.halfRes1 io.halfRes2).calls

/-- PortalInfo input to the info updater; nil fields mean leave alone. -/
structure PortalInfo where
  name : Option String
  topic : Option String
  avatar : Option Avatar
  members : List NetworkUserID
  isDirectChat : Option Bool
  isSpace : Option Bool

/-- Portal.UpdateInfo: apply the name/topic/avatar diffs in order; when any
of them reported a change, publish bridge info. (The trailing portal-row
database update only logs on failure and is not observable here.) -/
def UpdateInfo (portal : PortalState) (bot : MatrixAPI) (senderIntent : Option MatrixAPI)
    (io : InfoOracle) (info : PortalInfo) : UpdateResult :=
  let r0 : UpdateResult := ⟨portal, [], false⟩
  let r1 := match info.name with
    | none => r0
    | some n =>
      let u := UpdateName r0.portal bot senderIntent io.nameRes1 io.nameRes2 n
      ⟨u.portal, r0.calls ++ u.calls, u.changed || r0.changed⟩
  let r2 := match info.topic with
    | none => r1
    | some t =>
      let u := UpdateTopic r1.portal bot senderIntent io.topicRes1 io.topicRes2 t
      ⟨u.portal, r1.calls ++ u.calls, u.changed || r1.changed⟩
  let r3 := match info.avatar with
    | none => r2
    | some a =>
      let u := UpdateAvatar r2.portal bot senderIntent io.avatarReupload
          io.avatarRes1 io.avatarRes2 a
      ⟨u.portal, r2.calls ++ u.calls, u.changed || r2.changed⟩
  if r3.changed then ⟨r3.portal, r3.calls ++ UpdateBridgeInfo r3.portal bot io, true⟩
  else r3

/-- A Go nil-pointer dereference / panic outcome. -/
inductive GoPanic where
  | nilDeref
deriving DecidableEq

/-- The error steps CreateMatrixRoom can fail at. -/
inductive CreateErr where
  | chatInfo
  | sync
  | createRoom
  | dbUpdate
deriving DecidableEq

/-- Oracle results for the external calls of CreateMatrixRoom:
GetChatInfo, SyncParticipants, Bot.CreateRoom, and the portal row update. -/
structure CreateRoomOracle where
  getChatInfo : Except String PortalInfo
  syncParticipants : Except String (List UserID)
  createRoom : Except MatrixErr RoomID
  dbUpdate : Except String Unit

/-- Result of CreateMatrixRoom: final portal state and the returned error
step, if any. -/
structure CreateRoomResult where
  portal : PortalState
  err : Option CreateErr

/-- Portal.CreateMatrixRoom. Fast-returns when the room already exists;
otherwise fetches chat info, applies UpdateInfo (sender nil, so all state
sends are no-ops while mxid is empty), syncs the participant list,
dereferences info.IsDirectChat and info.IsSpace (a nil pointer panics, as
in the source), creates the room, then marks NameSet/TopicSet/AvatarSet,
assigns MXID and persists; a failing persist still returns with MXID set. -/
def CreateMatrixRoom (portal : PortalState) (bot : MatrixAPI) (o : CreateRoomOracle)
    (io : InfoOracle) : Except GoPanic CreateRoomResult :=
  if portal.mxid ≠ "" then Except.ok ⟨portal, none⟩
  else
    match o.getChatInfo with
    | Except.error _ => Except.ok ⟨portal, some CreateErr.chatInfo⟩
    | Except.ok info =>
      let portal := (UpdateInfo portal bot none io info).portal
      match o.syncParticipants with
      | Except.error _ => Except.ok ⟨portal, some CreateErr.sync⟩
      | Except.ok _initialMembers =>
        match info.isDirectChat with
        | none => Except.error GoPanic.nilDeref
        | some _isDirect =>
          match info.isSpace with
          | none => Except.error GoPanic.nilDeref
          | some _isSpace =>
            match o.createRoom with
            | Except.error _ => Except.ok ⟨portal, some CreateErr.createRoom⟩
            | Except.ok roomID =>
              let portal := { portal with
                avatarSet := true, topicSet := true, nameSet := true, mxid := roomID }
              match o.dbUpdate with
              | Except.error _ => Except.ok ⟨portal, some CreateErr.dbUpdate⟩
              | Except.ok _ => Except.ok ⟨portal, none⟩

/-- The relation fields of an m.room.message content (event.RelatesTo
accessors); the empty string encodes an absent relation, as in the
source's Get* helpers. -/
structure RelatesTo where
  replaceID : EventID
  threadParent : EventID
  nonFallbackReplyTo : EventID
  replyTo : EventID
deriving DecidableEq

/-- The slice of event.MessageEventContent the handlers read. -/
structure MessageEventContent where
  relatesTo : RelatesTo
deriving DecidableEq

/-- Calls made to the remote-network client (RClient) by the Matrix-side
handlers, with the resolved rows they were handed. -/
inductive RClientCall where
  | message (threadRoot replyTo : Option Message)
  | edit (target : Message)
  | messageRemove (target : Message)
  | reactionRemove (target : Reaction)
deriving DecidableEq

/-- Store writes performed by the Matrix-side handlers. -/
inductive DBWrite where
  | insertMessage (m : Message)
  | updateMessage (m : Message)
deriving DecidableEq

/-- Replace the row with the same RowID (database.Message.Update). -/
def updateMessageRow (db : Database) (m : Message) : Database :=
  { db with messages := db.messages.map (fun x => if x.rowID == m.rowID then m else x) }

/-- Result of a Matrix-side handler: the new store, the RClient calls made
and the successful store writes, each in order. -/
structure HandlerResult where
  db : Database
  rcalls : List RClientCall
  writes : List DBWrite
deriving DecidableEq

/-- Oracle for handleMatrixEdit: whether the edit-target lookup fails, the
outcome of RClient.HandleMatrixEdit (the edit target row as mutated by the
client on success), and whether the subsequent row update fails. -/
structure EditOracle where
  lookupFails : Bool
  editResult : Except String Message
  updateFails : Bool

/-- Portal.handleMatrixEdit: resolve the edit target by the ReplaceID
relation; on lookup error or missing target, log and drop; otherwise call
HandleMatrixEdit and, on success, update the stored row. (The NewContent
substitution only affects what is handed to the client, which is opaque
here.) -/
def handleMatrixEdit (db : Database) (o : EditOracle) (content : MessageEventContent) :
    HandlerResult :=
  let editTargetID := content.relatesTo.replaceID
  if o.lookupFails then ⟨db, [], []⟩
  else
    match GetPartByMXID db editTargetID with
    | none => ⟨db, [], []⟩
    | some editTarget =>
      match o.editResult with
      | Except.error _ => ⟨db, [RClientCall.edit editTarget], []⟩
      | Except.ok updated =>
        if o.updateFails then ⟨db, [RClientCall.edit editTarget], []⟩
        else ⟨updateMessageRow db updated, [RClientCall.edit editTarget],
              [DBWrite.updateMessage updated]⟩

/-- Oracle for handleMatrixMessage: lookup failure flags for the thread
root and reply target, the outcome of RClient.HandleMatrixMessage (the
message row built by the client), the insert outcome, and the edit oracle
used when the event routes to handleMatrixEdit. -/
structure MatrixMessageOracle where
  threadLookupFails : Bool
  replyLookupFails : Bool
  handleResult : Except String Message
  insertFails : Bool
  edit : EditOracle

/-- Portal.handleMatrixMessage: events whose content carries a ReplaceID
relation route to handleMatrixEdit; otherwise resolve thread root and
reply target (threads and replies are both enabled in this version, so the
non-fallback reply id is used), call HandleMatrixMessage, stamp the
sender_mxid metadata and insert the returned row. -/
def handleMatrixMessage (db : Database) (o : MatrixMessageOracle) (evtSender : UserID)
    (content : MessageEventContent) : HandlerResult :=
  if content.relatesTo.replaceID ≠ "" then handleMatrixEdit db o.edit content
  else
    let threadRootID := content.relatesTo.threadParent
    let threadRoot := if threadRootID ≠ "" ∧ o.threadLookupFails = false then
        GetPartByMXID db threadRootID
      else none
    let replyToID := content.relatesTo.nonFallbackReplyTo
    let replyTo := if replyToID ≠ "" ∧ o.replyLookupFails = false then
        GetPartByMXID db replyToID
      else none
    match o.handleResult with
    | Except.error _ => ⟨db, [RClientCall.message threadRoot replyTo], []⟩
    | Except.ok message =>
      let message := { message with senderMXID := some evtSender }
      if o.insertFails then ⟨db, [RClientCall.message threadRoot replyTo], []⟩
      else ⟨{ db with messages := db.messages ++ [message] },
            [RClientCall.message threadRoot replyTo],
            [DBWrite.insertMessage message]⟩

/-- Oracle for handleMatrixRedaction: lookup failure flags for the two
target queries and the outcome of the HandleMatrixMessageRemove /
HandleMatrixReactionRemove call (which only affects logging; the source
ends in a TODO and deletes no row). -/
structure RedactionOracle where
  msgLookupFails : Bool
  reactionLookupFails : Bool
  removeResult : Except String Unit

/-- Portal.handleMatrixRedaction. The target id starts as content.Redacts
and is overwritten by evt.Redacts whenever that is non-empty and differs;
then the id is resolved first against messages, then against reactions,
and the matching remove call is made. No store write happens on success:
the row deletion is an unimplemented TODO in the source. -/
def handleMatrixRedaction (db : Database) (o : RedactionOracle)
    (contentRedacts evtRedacts : EventID) : Database × List RClientCall :=
  let redacts := if evtRedacts ≠ "" ∧ contentRedacts ≠ evtRedacts then evtRedacts
    else contentRedacts
  if o.msgLookupFails then (db, [])
  else
    let redactionTargetMsg := GetPartByMXID db redacts
    if o.reactionLookupFails then (db, [])
    else
      let redactionTargetReaction := GetReactionByMXID db redacts
      match redactionTargetMsg with
      | some m => (db, [RClientCall.messageRemove m])
      | none =>
        match redactionTargetReaction with
        | some r => (db, [RClientCall.reactionRemove r])
        | none => (db, [])

/-- The remote-event sender descriptor (EventSender). -/
structure EventSender where
  sender : NetworkUserID
  senderLogin : String
  isFromMe : Bool
deriving DecidableEq

/-- The observable accessors of a RemoteMessage event. -/
structure RemoteMessageEvt where
  id : NetworkMessageID
  sender : EventSender
deriving DecidableEq

/-- One part of a ConvertedMessage; the content itself is opaque to the
properties proved here, only the part id is tracked. -/
structure ConvertedMessagePart where
  partID : NetworkPartID
deriving DecidableEq

/-- ConvertedMessage as returned by RemoteMessage.ConvertMessage. -/
structure ConvertedMessage where
  replyTo : Option MessageOptionalPartID
  threadRoot : Option MessageOptionalPartID
  timestamp : Nat
  parts : List ConvertedMessagePart
deriving DecidableEq

/-- One SendMessage call as issued by the remote-message handler. -/
structure SendCall where
  intentMXID : UserID
  roomID : RoomID
  partID : NetworkPartID
deriving DecidableEq

/-- Result of handleRemoteMessage: the new store, the SendMessage calls
attempted, and the rows handed to Message.Insert, each in order. -/
structure RemoteResult where
  db : Database
  sends : List SendCall
  inserted : List Message
deriving DecidableEq

/-- Oracle for handleRemoteMessage: whether the duplicate-check lookup
errors, the resolved intent (none aborts), the ConvertMessage outcome,
failure flags for the reply/thread row lookups, and per-part SendMessage
and Insert outcomes (indexed by part position). -/
structure RemoteMessageOracle where
  dupLookupFails : Bool
  intent : Option MatrixAPI
  convert : Except String ConvertedMessage
  replyLookupFails : Bool
  threadLookupFails : Bool
  sendResults : List MatrixResult
  insertResults : List Bool

/-- The reply/thread resolution step of handleRemoteMessage: the reply row
id is taken first, then overwritten by the thread-root row id when the
thread root resolves; the second component is prevThreadEvent (the thread
root). A lookup that reports no error but finds no row makes the source
dereference a nil pointer, modelled as a panic. -/
def resolveRelatesTo (db : Database) (o : RemoteMessageOracle) (c : ConvertedMessage) :
    Except GoPanic (Int × Option Message) :=
  let step1 : Except GoPanic Int :=
    match c.replyTo with
    | none => Except.ok 0
    | some key =>
      if o.replyLookupFails then Except.ok 0
      else
        match GetFirstOrSpecificPartByID db key with
        | some m => Except.ok m.rowID
        | none => Except.error GoPanic.nilDeref
  match step1 with
  | Except.error e => Except.error e
  | Except.ok r1 =>
    match c.threadRoot with
    | none => Except.ok (r1, none)
    | some key =>
      if o.threadLookupFails then Except.ok (r1, none)
      else
        match GetFirstOrSpecificPartByID db key with
        | some m => Except.ok (m.rowID, some m)
        | none => Except.error GoPanic.nilDeref

/-- The per-part send/insert loop of handleRemoteMessage. Every part
attempts a SendMessage; a failed send skips the insert and continues. The
inserted row carries the portal id, the remote sender, the resolved
RelatesToRowID and the intent mxid stamped into sender_mxid metadata (the
store assigns the real row id on insert; the in-memory struct keeps the
zero value, as in the source). -/
def remoteSendLoop (portalID : PortalID) (roomMXID : RoomID) (evt : RemoteMessageEvt)
    (intent : MatrixAPI) (relatesToRowID : Int) (timestamp : Nat)
    (sendResults : List MatrixResult) (insertResults : List Bool) :
    List ConvertedMessagePart → Nat → Database → Option Message → RemoteResult
  | [], _, db, _ => ⟨db, [], []⟩
  | part :: rest, i, db, prevThreadEvent =>
    let call : SendCall := ⟨intent.mxid, roomMXID, part.partID⟩
    match sendResults.getD i (Except.error (MatrixErr.otherErr "")) with
    | Except.error _ =>
      let r := remoteSendLoop portalID roomMXID evt intent relatesToRowID timestamp
        sendResults insertResults rest (i + 1) db prevThreadEvent
      ⟨r.db, call :: r.sends, r.inserted⟩
    | Except.ok respEventID =>
      let dbMessage : Message :=
        { rowID := 0, id := evt.id, partID := part.partID, mxid := respEventID,
          roomID := portalID, senderID := evt.sender.sender, timestamp := timestamp,
          relatesToRowID := relatesToRowID, senderMXID := some intent.mxid }
      let db2 := if insertResults.getD i true then
          { db with messages := db.messages ++ [dbMessage] }
        else db
      let prev2 := if prevThreadEvent.isSome then some dbMessage else prevThreadEvent
      let r := remoteSendLoop portalID roomMXID evt intent relatesToRowID timestamp
        sendResults insertResults rest (i + 1) db2 prev2
      ⟨r.db, call :: r.sends, dbMessage :: r.inserted⟩

/-- Portal.handleRemoteMessage: duplicate check by GetFirstPartByID (a
lookup error only logs and falls through; a found row drops the event),
intent resolution, ConvertMessage, reply/thread resolution, then the
per-part send/insert loop. -/
def handleRemoteMessage (db : Database) (portal : PortalState) (o : RemoteMessageOracle)
    (evt : RemoteMessageEvt) : Except GoPanic RemoteResult :=
  if o.dupLookupFails = false ∧ (GetFirstPartByID db evt.id).isSome then
    Except.ok ⟨db, [], []⟩
  else
    match o.intent with
    | none => Except.ok ⟨db, [], []⟩
    | some intent =>
      match o.convert with
      | Except.error _ => Except.ok ⟨db, [], []⟩
      | Except.ok converted =>
        match resolveRelatesTo db o converted with
        | Except.error e => Except.error e
        | Except.ok (relatesToRowID, prevThreadEvent) =>
          Except.ok (remoteSendLoop portal.id portal.mxid evt intent relatesToRowID
            converted.timestamp o.sendResults o.insertResults converted.parts 0 db
            prevThreadEvent)

/-- The two portalEvent variants consumed by the pump (portalMatrixEvent
and portalRemoteEvent), tagged with an abstract payload. -/
inductive PortalEvent where
  | matrixEvt (tag : Nat)
  | remoteEvt (tag : Nat)
deriving DecidableEq

/-- Portal.eventLoop over the drained queue contents. panics says whether
the dispatched handler panics on a given event. The loop body has no
recovery boundary, so a handler panic propagates out of the loop: the
result is the list of events whose handler ran to completion, paired with
the panicking event when the loop died (none means the queue closed and
the loop ended normally). -/
def eventLoop (panics : PortalEvent → Bool) :
    List PortalEvent → List PortalEvent × Option PortalEvent
  | [] => ([], none)
  | e :: rest =>
    if panics e then ([], some e)
    else
      let r := eventLoop panics rest
      (e :: r.1, r.2)

/-! Concrete fixtures used by the per-claim counterexamples and witnesses. -/

/-- Fixture: a stored message row targeted by the C2 redaction. -/
def c2msg : Message :=
  { rowID := 7, id := "r1", partID := "0", mxid := "$m1", roomID := "chat1",
    senderID := "u1", timestamp := 100, relatesToRowID := 0, senderMXID := some "@alice:x" }

/-- Fixture: the C2 store holding exactly that row. -/
def c2db : Database := ⟨[c2msg], []⟩

/-- Fixture: C2 oracle where both lookups succeed and the remove call succeeds. -/
def c2oracle : RedactionOracle := ⟨false, false, Except.ok ()⟩

/-- Fixture: C4 portal with no Matrix room yet. -/
def c4portal : PortalState :=
  { bridgeID := "bridge1", id := "chat1", mxid := "", name := "", topic := "",
    avatarID := "", avatarMXC := "", avatarHash := 0,
    nameSet := false, topicSet := false, avatarSet := false }

/-- Fixture: C4 chat info with nothing to update and both booleans present. -/
def c4info : PortalInfo :=
  { name := none, topic := none, avatar := none, members := [],
    isDirectChat := some false, isSpace := some false }

/-- Fixture: C4 info-update oracle (never consulted on this path). -/
def c4io : InfoOracle :=
  { nameRes1 := Except.ok "$x", nameRes2 := Except.ok "$x",
    topicRes1 := Except.ok "$x", topicRes2 := Except.ok "$x",
    avatarReupload := Except.ok ("", 0),
    avatarRes1 := Except.ok "$x", avatarRes2 := Except.ok "$x",
    bridgeRes1 := Except.ok "$x", bridgeRes2 := Except.ok "$x",
    halfRes1 := Except.ok "$x", halfRes2 := Except.ok "$x" }

/-- Fixture: C4 oracle where room creation succeeds but the portal row
update afterwards fails. -/
def c4oracle : CreateRoomOracle :=
  { getChatInfo := Except.ok c4info, syncParticipants := Except.ok [],
    createRoom := Except.ok "!new:x", dbUpdate := Except.error "connection reset" }

/-- Fixture: the C4 portal as it stands when the post-creation database
update fails: room created, set flags true, MXID assigned. -/
def c4after : PortalState := { c4portal with
  mxid := "!new:x", nameSet := true, topicSet := true, avatarSet := true }

/-- Fixture: C4 witness oracle where the CreateRoom call itself fails. -/
def c4wOracle : CreateRoomOracle :=
  { getChatInfo := Except.ok c4info, syncParticipants := Except.ok [],
    createRoom := Except.error (MatrixErr.otherErr "M_UNKNOWN"),
    dbUpdate := Except.ok () }

/-- Fixture: C5 message row whose Matrix event id is the content.Redacts value. -/
def c5msgA : Message :=
  { rowID := 1, id := "ra", partID := "0", mxid := "$a", roomID := "chat1",
    senderID := "u1", timestamp := 100, relatesToRowID := 0, senderMXID := none }

/-- Fixture: C5 message row whose Matrix event id is the evt.Redacts value. -/
def c5msgB : Message :=
  { rowID := 2, id := "rb", partID := "0", mxid := "$b", roomID := "chat1",
    senderID := "u2", timestamp := 200, relatesToRowID := 0, senderMXID := none }

/-- Fixture: C5 store holding both rows. -/
def c5db : Database := ⟨[c5msgA, c5msgB], []⟩

/-- Fixture: C5 oracle where both lookups succeed. -/
def c5oracle : RedactionOracle := ⟨false, false, Except.ok ()⟩

/-- Fixture: the C6 edit-target row. -/
def c6target : Message :=
  { rowID := 3, id := "rc", partID := "0", mxid := "$target", roomID := "chat1",
    senderID := "u1", timestamp := 100, relatesToRowID := 0, senderMXID := some "@alice:x" }

/-- Fixture: the C6 edit-target row as mutated by the network client. -/
def c6updated : Message := { c6target with timestamp := 150 }

/-- Fixture: C6 store holding the target row. -/
def c6db : Database := ⟨[c6target], []⟩

/-- Fixture: C6 oracle where the edit lookup and client call succeed. -/
def c6oracle : MatrixMessageOracle :=
  { threadLookupFails := false, replyLookupFails := false,
    handleResult := Except.error "unused", insertFails := false,
    edit := { lookupFails := false, editResult := Except.ok c6updated,
              updateFails := false } }

/-- Fixture: C6 content editing the stored target. -/
def c6content : MessageEventContent :=
  ⟨{ replaceID := "$target", threadParent := "", nonFallbackReplyTo := "", replyTo := "" }⟩

/-- Fixture: C6 content editing a target that is not in the store. -/
def c6contentMissing : MessageEventContent :=
  ⟨{ replaceID := "$missing", threadParent := "", nonFallbackReplyTo := "", replyTo := "" }⟩

/-- Fixture: portal used by the remote-message claims. -/
def c7portal : PortalState :=
  { bridgeID := "bridge1", id := "chat1", mxid := "!room:x", name := "", topic := "",
    avatarID := "", avatarMXC := "", avatarHash := 0,
    nameSet := true, topicSet := true, avatarSet := true }

/-- Fixture: a previously bridged copy of the C7 remote message. -/
def c7existing : Message :=
  { rowID := 4, id := "dup1", partID := "0", mxid := "$old", roomID := "chat1",
    senderID := "u1", timestamp := 50, relatesToRowID := 0, senderMXID := some "@g:x" }

/-- Fixture: C7 store already holding that copy. -/
def c7db : Database := ⟨[c7existing], []⟩

/-- Fixture: the duplicate C7 remote event. -/
def c7evt : RemoteMessageEvt := ⟨"dup1", ⟨"u1", "", false⟩⟩

/-- Fixture: C7 oracle (nothing past the duplicate check is reached). -/
def c7oracle : RemoteMessageOracle :=
  { dupLookupFails := false, intent := some ⟨"@g:x"⟩,
    convert := Except.ok ⟨none, none, 60, [⟨"0"⟩]⟩,
    replyLookupFails := false, threadLookupFails := false,
    sendResults := [Except.ok "$new"], insertResults := [true] }

/-- Fixture: the stored reply target used by C8. -/
def c8replyRow : Message :=
  { rowID := 10, id := "reply1", partID := "0", mxid := "$reply", roomID := "chat1",
    senderID := "u1", timestamp := 10, relatesToRowID := 0, senderMXID := some "@a:x" }

/-- Fixture: the stored thread root used by C8. -/
def c8threadRow : Message :=
  { rowID := 20, id := "thread1", partID := "0", mxid := "$thread", roomID := "chat1",
    senderID := "u2", timestamp := 20, relatesToRowID := 0, senderMXID := some "@b:x" }

/-- Fixture: C8 store holding reply target and thread root. -/
def c8db : Database := ⟨[c8replyRow, c8threadRow], []⟩

/-- Fixture: the C8 remote event. -/
def c8evt : RemoteMessageEvt := ⟨"new1", ⟨"u3", "", false⟩⟩

/-- Fixture: the C8 converted message, replying to reply1 inside thread thread1. -/
def c8conv : ConvertedMessage :=
  ⟨some ⟨"reply1", none⟩, some ⟨"thread1", none⟩, 30, [⟨"0"⟩, ⟨"1"⟩]⟩

/-- Fixture: C8 oracle where everything succeeds. -/
def c8oracle : RemoteMessageOracle :=
  { dupLookupFails := false, intent := some ⟨"@g:x"⟩, convert := Except.ok c8conv,
    replyLookupFails := false, threadLookupFails := false,
    sendResults := [Except.ok "$n1", Except.ok "$n2"], insertResults := [true, true] }

/-- Fixture: C9 portal with a Matrix room, a set avatar and hash 5. -/
def c9portal : PortalState :=
  { bridgeID := "bridge1", id := "chat1", mxid := "!room:x", name := "", topic := "",
    avatarID := "avatar-old", avatarMXC := "mxc://x/old", avatarHash := 5,
    nameSet := true, topicSet := true, avatarSet := true }

/-- Fixture: portal used by the C10 witness. -/
def c10portal : PortalState :=
  { bridgeID := "bridge1", id := "chat1", mxid := "!room:x", name := "", topic := "",
    avatarID := "", avatarMXC := "", avatarHash := 0,
    nameSet := true, topicSet := true, avatarSet := true }

/-- Fixture: a previously bridged copy of the C10 remote message, showing
that skipping the failed duplicate check can re-send an already bridged
message. -/
def c10existing : Message :=
  { rowID := 5, id := "dup1", partID := "0", mxid := "$old2", roomID := "chat1",
    senderID := "u1", timestamp := 50, relatesToRowID := 0, senderMXID := some "@g:x" }

/-- Fixture: C10 store already holding that copy. -/
def c10db : Database := ⟨[c10existing], []⟩

/-- Fixture: the C10 remote event whose duplicate check errors. -/
def c10evt : RemoteMessageEvt := ⟨"dup1", ⟨"u1", "", false⟩⟩

/-- Fixture: C10 oracle where the duplicate-check lookup fails and the rest
succeeds. -/
def c10oracle : RemoteMessageOracle :=
  { dupLookupFails := true, intent := some ⟨"@g:x"⟩,
    convert := Except.ok ⟨none, none, 60, [⟨"0"⟩]⟩,
    replyLookupFails := false, threadLookupFails := false,
    sendResults := [Except.ok "$new2"], insertResults := [true] }

/-! Helper lemmas shared by the claim proofs. -/

/-- UpdateName never touches the portal's MXID. -/
theorem UpdateName_mxid (p : PortalState) (bot : MatrixAPI) (si : Option MatrixAPI)
    (r1 r2 : MatrixResult) (n : String) :
    (UpdateName p bot si r1 r2 n).portal.mxid = p.mxid := by
  unfold UpdateName
  split <;> rfl

/-- UpdateTopic never touches the portal's MXID. -/
theorem UpdateTopic_mxid (p : PortalState) (bot : MatrixAPI) (si : Option MatrixAPI)
    (r1 r2 : MatrixResult) (t : String) :
    (UpdateTopic p bot si r1 r2 t).portal.mxid = p.mxid := by
  unfold UpdateTopic
  split <;> rfl

/-- UpdateAvatar never touches the portal's MXID. -/
theorem UpdateAvatar_mxid (p : PortalState) (bot : MatrixAPI) (si : Option MatrixAPI)
    (re : Except String (String × AvatarHash)) (r1 r2 : MatrixResult) (a : Avatar) :
    (UpdateAvatar p bot si re r1 r2 a).portal.mxid = p.mxid := by
  unfold UpdateAvatar
  split
  case isTrue => rfl
  case isFalse =>
    split
    case isTrue => rfl
    case isFalse =>
      cases re with
      | error e => rfl
      | ok pair =>
        cases pair with
        | mk newMXC newHash =>
          by_cases hh : newHash = p.avatarHash <;> simp [hh]

/-- UpdateInfo never touches the portal's MXID. -/
theorem UpdateInfo_mxid (p : PortalState) (bot : MatrixAPI) (si : Option MatrixAPI)
    (io : InfoOracle) (info : PortalInfo) :
    (UpdateInfo p bot si io info).portal.mxid = p.mxid := by
  unfold UpdateInfo
  cases info.name <;> cases info.topic <;> cases info.avatar <;>
    simp only [] <;> split <;>
    simp [UpdateName_mxid, UpdateTopic_mxid, UpdateAvatar_mxid]

/-- Every row handed to Insert by the remote send loop carries the
relatesToRowID it was started with. -/
theorem remoteSendLoop_inserted_relates (pid : PortalID) (room : RoomID)
    (evt : RemoteMessageEvt) (intent : MatrixAPI) (rel : Int) (ts : Nat)
    (sr : List MatrixResult) (ir : List Bool) :
    ∀ (parts : List ConvertedMessagePart) (i : Nat) (db : Database) (prev : Option Message),
      ∀ m ∈ (remoteSendLoop pid room evt intent rel ts sr ir parts i db prev).inserted,
        m.relatesToRowID = rel := by
  intro parts
  induction parts with
  | nil =>
    intro i db prev m hm
    simp [remoteSendLoop] at hm
  | cons part rest ih =>
    intro i db prev m hm
    unfold remoteSendLoop at hm
    cases hs : sr.getD i (Except.error (MatrixErr.otherErr "")) with
    | error e =>
      rw [hs] at hm
      simp only [] at hm
      exact ih (i + 1) db prev m hm
    | ok respEventID =>
      rw [hs] at hm
      simp only [List.mem_cons] at hm
      cases hm with
      | inl heq => rw [heq]
      | inr hmem =>
        exact ih (i + 1) _ _ m hmem

/-- The remote send loop attempts one SendMessage per converted part. -/
theorem remoteSendLoop_sends_length (pid : PortalID) (room : RoomID)
    (evt : RemoteMessageEvt) (intent : MatrixAPI) (rel : Int) (ts : Nat)
    (sr : List MatrixResult) (ir : List Bool) :
    ∀ (parts : List ConvertedMessagePart) (i : Nat) (db : Database) (prev : Option Message),
      (remoteSendLoop pid room evt intent rel ts sr ir parts i db prev).sends.length =
        parts.length := by
  intro parts
  induction parts with
  | nil =>
    intro i db prev
    simp [remoteSendLoop]
  | cons part rest ih =>
    intro i db prev
    unfold remoteSendLoop
    cases hs : sr.getD i (Except.error (MatrixErr.otherErr "")) with
    | error e => simp [ih]
    | ok respEventID => simp [ih]

/-- A sendRoomMeta invocation for an m.room.avatar event on an existing
room issues exactly one SendState call of type m.room.avatar, whatever the
call results are: the Forbidden retry carries type m.room.name. -/
theorem sendRoomMeta_avatar_count (mxid : RoomID) (bot : MatrixAPI)
    (si : Option MatrixAPI) (stateKey : String) (res1 res2 : MatrixResult)
    (hmxid : mxid ≠ "") :
    ((sendRoomMeta mxid bot si EventType.stateRoomAvatar stateKey res1 res2).calls.countP
      (fun cl => cl.eventType == EventType.stateRoomAvatar)) = 1 := by
  unfold sendRoomMeta
  rw [if_neg hmxid]
  cases si with
  | none =>
    cases res1 with
    | error e =>
      cases e with
      | forbidden => simp [List.countP_cons, List.countP_nil]
      | otherErr msg => simp [List.countP_cons, List.countP_nil]
    | ok eid => simp [List.countP_cons, List.countP_nil]
  | some i =>
    cases res1 with
    | error e =>
      cases e with
      | forbidden =>
        by_cases hib : i = bot
        · simp [hib, List.countP_cons, List.countP_nil]
        · cases res2 with
          | error e2 => simp [hib, List.countP_cons, List.countP_nil]
          | ok eid2 => simp [hib, List.countP_cons, List.countP_nil]
      | otherErr msg => simp [List.countP_cons, List.countP_nil]
    | ok eid => simp [List.countP_cons, List.countP_nil]

/-! Claim theorems. -/

/-- Claim C1: at a concrete room-metadata state send (a topic event)
through a ghost intent that is refused with Forbidden, sendRoomMeta does
retry exactly once as the bridge bot with the set_by annotation — but the
retried event carries type m.room.name and an empty state key instead of
the original event type, refuting the claim that the retry sends the same
event type; evaluation of the embedded source at the failing input. -/
theorem c1_forbidden_retry_changes_event_type :
    (sendRoomMeta "!r:x" ⟨"@bot:x"⟩ (some ⟨"@ghost:x"⟩) EventType.stateTopic ""
        (Except.error MatrixErr.forbidden) (Except.ok "$e2")).calls =
      [⟨⟨"@ghost:x"⟩, "!r:x", EventType.stateTopic, "", none⟩,
       ⟨⟨"@bot:x"⟩, "!r:x", EventType.stateRoomName, "", some "@ghost:x"⟩] ∧
    EventType.stateRoomName ≠ EventType.stateTopic := by
  exact ⟨by decide, by decide⟩

/-- Claim C2: a Matrix redaction whose target resolves to the stored
message row and whose HandleMatrixMessageRemove call succeeds leaves the
store unchanged — the row is still present afterwards, because the row
deletion is an unimplemented TODO in the source; evaluation of the
embedded source at the failing input. -/
theorem c2_redaction_does_not_delete_row :
    (handleMatrixRedaction c2db c2oracle "$m1" "").2 = [RClientCall.messageRemove c2msg] ∧
    c2oracle.removeResult = Except.ok () ∧
    (handleMatrixRedaction c2db c2oracle "$m1" "").1 = c2db ∧
    c2msg ∈ ((handleMatrixRedaction c2db c2oracle "$m1" "").1).messages := by
  refine ⟨by decide, rfl, by decide, by decide⟩

/-- Claim C3: with a queue holding two events where the first dispatched
handler panics, eventLoop returns having completed no handler and having
propagated the panic: there is no recovery boundary, so the second queued
event is never processed — refuting the claim that the pump recovers and
continues; evaluation of the embedded source at the failing input. -/
theorem c3_handler_panic_stops_pump :
    eventLoop (fun e => e == PortalEvent.matrixEvt 0)
        [PortalEvent.matrixEvt 0, PortalEvent.remoteEvt 1] =
      ([], some (PortalEvent.matrixEvt 0)) := by
  decide

/-- Claim C7: whenever the duplicate check succeeds and finds an existing
row for the remote message id, handleRemoteMessage performs no outbound
send and no insert and leaves the store unchanged. -/
theorem c7_duplicate_message_dropped (db : Database) (p : PortalState)
    (o : RemoteMessageOracle) (evt : RemoteMessageEvt) (m : Message)
    (hdup : o.dupLookupFails = false) (hex : GetFirstPartByID db evt.id = some m) :
    handleRemoteMessage db p o evt = Except.ok ⟨db, [], []⟩ := by
  unfold handleRemoteMessage
  rw [if_pos]
  exact ⟨hdup, by rw [hex]; rfl⟩

/-- Claim C7 witness: the duplicate remote event dup1 against a store
already holding its bridged copy is dropped without sends or inserts. -/
theorem c7_duplicate_message_dropped_witness :
    (c7oracle.dupLookupFails = false ∧ GetFirstPartByID c7db c7evt.id = some c7existing) ∧
    handleRemoteMessage c7db c7portal c7oracle c7evt = Except.ok ⟨c7db, [], []⟩ :=
  ⟨⟨rfl, by decide⟩,
   c7_duplicate_message_dropped c7db c7portal c7oracle c7evt c7existing rfl (by decide)⟩

/-- Claim C4 counterexample: room creation succeeds but the portal row
update afterwards fails; CreateMatrixRoom returns a non-nil error, yet the
portal's MXID is the new room id, not the empty string. -/
theorem c4_counterexample_error_with_mxid_set :
    CreateMatrixRoom c4portal ⟨"@bot:x"⟩ c4oracle c4io =
      Except.ok ⟨c4after, some CreateErr.dbUpdate⟩ ∧
    c4after.mxid ≠ "" := by
  exact ⟨rfl, by decide⟩

/-- Claim C4 (amended): on a portal with MXID empty, an error arising
before room creation (GetChatInfo, SyncParticipants, or the CreateRoom
call itself failing) leaves MXID empty so a later event can retry; when
the post-creation database update fails, the error is returned but MXID
already holds the newly created room id. -/
theorem c4_error_before_creation_leaves_mxid_empty (portal : PortalState)
    (bot : MatrixAPI) (o : CreateRoomOracle) (io : InfoOracle) (r : CreateRoomResult)
    (hmxid : portal.mxid = "")
    (hres : CreateMatrixRoom portal bot o io = Except.ok r) :
    (r.err = some CreateErr.chatInfo → r.portal.mxid = "") ∧
    (r.err = some CreateErr.sync → r.portal.mxid = "") ∧
    (r.err = some CreateErr.createRoom → r.portal.mxid = "") ∧
    (∀ roomID, r.err = some CreateErr.dbUpdate → o.createRoom = Except.ok roomID →
      r.portal.mxid = roomID) := by
  unfold CreateMatrixRoom at hres
  rw [if_neg (by simp [hmxid])] at hres
  cases hg : o.getChatInfo with
  | error e =>
    simp only [hg, Except.ok.injEq] at hres
    subst hres
    simp [hmxid]
  | ok info =>
    simp only [hg] at hres
    cases hs : o.syncParticipants with
    | error e =>
      simp only [hs, Except.ok.injEq] at hres
      subst hres
      simp [UpdateInfo_mxid, hmxid]
    | ok members =>
      simp only [hs] at hres
      cases hd : info.isDirectChat with
      | none => simp [hd] at hres
      | some bdir =>
        simp only [hd] at hres
        cases hsp : info.isSpace with
        | none => simp [hsp] at hres
        | some bsp =>
          simp only [hsp] at hres
          cases hc : o.createRoom with
          | error e =>
            simp only [hc, Except.ok.injEq] at hres
            subst hres
            simp [UpdateInfo_mxid, hmxid]
          | ok roomID =>
            simp only [hc] at hres
            cases hdb : o.dbUpdate with
            | error e =>
              simp only [hdb, Except.ok.injEq] at hres
              subst hres
              refine ⟨by simp, by simp, by simp, ?_⟩
              intro rid _ h2
              injection h2 with h3
            | ok u =>
              simp only [hdb, Except.ok.injEq] at hres
              subst hres
              simp

/-- Claim C4 witness: with the CreateRoom call failing, the amended
theorem applies and the portal is left with an empty MXID. -/
theorem c4_error_before_creation_leaves_mxid_empty_witness :
    (c4portal.mxid = "" ∧
     CreateMatrixRoom c4portal ⟨"@bot:x"⟩ c4wOracle c4io =
       Except.ok ⟨c4portal, some CreateErr.createRoom⟩) ∧
    ((⟨c4portal, some CreateErr.createRoom⟩ : CreateRoomResult).err =
        some CreateErr.createRoom →
      (⟨c4portal, some CreateErr.createRoom⟩ : CreateRoomResult).portal.mxid = "") :=
  ⟨⟨rfl, rfl⟩,
   (c4_error_before_creation_leaves_mxid_empty c4portal ⟨"@bot:x"⟩ c4wOracle c4io
     ⟨c4portal, some CreateErr.createRoom⟩ rfl rfl).2.2.1⟩

/-- Claim C5 counterexample: content.Redacts is "$a", which resolves to a
stored message, and evt.Redacts is "$b"; the code nevertheless dispatches
HandleMatrixMessageRemove on the row resolved from evt.Redacts, refuting
the claim that evt.Redacts is only a fallback for an absent
content.Redacts. -/
theorem c5_counterexample_evt_redacts_wins :
    GetPartByMXID c5db "$a" = some c5msgA ∧
    (handleMatrixRedaction c5db c5oracle "$a" "$b").2 =
      [RClientCall.messageRemove c5msgB] ∧
    c5msgB ≠ c5msgA := by
  exact ⟨by decide, by decide, by decide⟩

/-- Claim C5 (amended): handleMatrixRedaction resolves the target id as
evt.Redacts whenever that is non-empty, falling back to content.Redacts
only when evt.Redacts is absent; a resolved Message dispatches
HandleMatrixMessageRemove, else a resolved Reaction dispatches
HandleMatrixReactionRemove, and an unknown target produces no client call;
the store is never modified. -/
theorem c5_redaction_dispatch (db : Database) (o : RedactionOracle) (cr er : EventID)
    (hm : o.msgLookupFails = false) (hr : o.reactionLookupFails = false) :
    (handleMatrixRedaction db o cr er).1 = db ∧
    (handleMatrixRedaction db o cr er).2 =
      (match GetPartByMXID db (if er ≠ "" then er else cr) with
       | some m => [RClientCall.messageRemove m]
       | none =>
         match GetReactionByMXID db (if er ≠ "" then er else cr) with
         | some rr => [RClientCall.reactionRemove rr]
         | none => []) := by
  have hre : (if er ≠ "" ∧ cr ≠ er then er else cr) = (if er ≠ "" then er else cr) := by
    by_cases h1 : er = "" <;> by_cases h2 : cr = er <;> simp [h1, h2]
  unfold handleMatrixRedaction
  simp only [hm, hr, Bool.false_eq_true, if_false, hre]
  cases hmsg : GetPartByMXID db (if er ≠ "" then er else cr) with
  | some m => simp [hmsg]
  | none =>
    cases hrx : GetReactionByMXID db (if er ≠ "" then er else cr) with
    | some rr => simp [hmsg, hrx]
    | none => simp [hmsg, hrx]

/-- Claim C5 witness: at the concrete redaction with both ids set, the
amended theorem applies and the store is unchanged. -/
theorem c5_redaction_dispatch_witness :
    (c5oracle.msgLookupFails = false ∧ c5oracle.reactionLookupFails = false) ∧
    (handleMatrixRedaction c5db c5oracle "$a" "$b").1 = c5db :=
  ⟨⟨rfl, rfl⟩, (c5_redaction_dispatch c5db c5oracle "$a" "$b" rfl rfl).1⟩

/-- Claim C6: a Matrix message whose content carries a non-empty ReplaceID
routes to the edit handler; when the target is stored and HandleMatrixEdit
succeeds, the only store write is an update of the client-mutated target
row — no Message row is inserted and the row count is unchanged; when the
target is absent, no network-client call and no store write happen. -/
theorem c6_edit_updates_no_insert (db : Database) (o : MatrixMessageOracle) (s : UserID)
    (c : MessageEventContent) (hrep : c.relatesTo.replaceID ≠ "")
    (hl : o.edit.lookupFails = false) :
    (∀ t u, GetPartByMXID db c.relatesTo.replaceID = some t →
      o.edit.editResult = Except.ok u → u.rowID = t.rowID →
      o.edit.updateFails = false →
      handleMatrixMessage db o s c =
        ⟨updateMessageRow db u, [RClientCall.edit t], [DBWrite.updateMessage u]⟩ ∧
      (updateMessageRow db u).messages.length = db.messages.length) ∧
    (GetPartByMXID db c.relatesTo.replaceID = none →
      handleMatrixMessage db o s c = ⟨db, [], []⟩) := by
  constructor
  · intro t u ht hu hrow hup
    unfold handleMatrixMessage
    rw [if_pos hrep]
    unfold handleMatrixEdit
    simp [hl, ht, hu, hup, updateMessageRow]
  · intro hnone
    unfold handleMatrixMessage
    rw [if_pos hrep]
    unfold handleMatrixEdit
    simp [hl, hnone]

/-- Claim C6 witness: editing the stored $target row updates it in place
with no insert, and editing the unknown $missing target is a no-op. -/
theorem c6_edit_updates_no_insert_witness :
    (c6content.relatesTo.replaceID ≠ "" ∧ c6oracle.edit.lookupFails = false ∧
     GetPartByMXID c6db "$target" = some c6target ∧
     c6oracle.edit.editResult = Except.ok c6updated ∧
     GetPartByMXID c6db "$missing" = none) ∧
    handleMatrixMessage c6db c6oracle "@alice:x" c6content =
      ⟨updateMessageRow c6db c6updated, [RClientCall.edit c6target],
       [DBWrite.updateMessage c6updated]⟩ ∧
    handleMatrixMessage c6db c6oracle "@alice:x" c6contentMissing = ⟨c6db, [], []⟩ :=
  ⟨⟨by decide, rfl, by decide, rfl, by decide⟩,
   ((c6_edit_updates_no_insert c6db c6oracle "@alice:x" c6content (by decide) rfl).1
     c6target c6updated (by decide) rfl (by decide) rfl).1,
   (c6_edit_updates_no_insert c6db c6oracle "@alice:x" c6contentMissing
     (by decide) rfl).2 (by decide)⟩

/-- Claim C8: when a remote message passes the duplicate check and both
its reply target and thread root resolve to stored rows, the handler runs
the send loop with RelatesToRowID equal to the thread root's row id, and
every row handed to Insert carries that row id (thread precedence over
reply). -/
theorem c8_thread_precedence (db : Database) (p : PortalState)
    (o : RemoteMessageOracle) (evt : RemoteMessageEvt) (i : MatrixAPI)
    (c : ConvertedMessage) (rk tk : MessageOptionalPartID)
    (replyRow threadRow : Message)
    (hdup : o.dupLookupFails = false) (hnodup : GetFirstPartByID db evt.id = none)
    (hintent : o.intent = some i) (hconv : o.convert = Except.ok c)
    (hrk : c.replyTo = some rk) (htk : c.threadRoot = some tk)
    (hrf : o.replyLookupFails = false) (htf : o.threadLookupFails = false)
    (hreply : GetFirstOrSpecificPartByID db rk = some replyRow)
    (hthread : GetFirstOrSpecificPartByID db tk = some threadRow) :
    handleRemoteMessage db p o evt =
      Except.ok (remoteSendLoop p.id p.mxid evt i threadRow.rowID c.timestamp
        o.sendResults o.insertResults c.parts 0 db (some threadRow)) ∧
    ∀ m ∈ (remoteSendLoop p.id p.mxid evt i threadRow.rowID c.timestamp
        o.sendResults o.insertResults c.parts 0 db (some threadRow)).inserted,
      m.relatesToRowID = threadRow.rowID := by
  constructor
  · unfold handleRemoteMessage
    rw [if_neg (by simp [hnodup])]
    simp only [hintent, hconv]
    unfold resolveRelatesTo
    simp only [hrk, htk, hrf, htf, hreply, hthread, Bool.false_eq_true, if_false]
  · exact remoteSendLoop_inserted_relates p.id p.mxid evt i threadRow.rowID c.timestamp
      o.sendResults o.insertResults c.parts 0 db (some threadRow)

/-- Claim C8 witness: the concrete remote message replying to reply1
inside thread thread1 runs the send loop with the thread root's row id 20
(not the reply row id 10). -/
theorem c8_thread_precedence_witness :
    (GetFirstPartByID c8db c8evt.id = none ∧
     GetFirstOrSpecificPartByID c8db ⟨"reply1", none⟩ = some c8replyRow ∧
     GetFirstOrSpecificPartByID c8db ⟨"thread1", none⟩ = some c8threadRow ∧
     c8threadRow.rowID = 20 ∧ c8replyRow.rowID = 10) ∧
    handleRemoteMessage c8db c7portal c8oracle c8evt =
      Except.ok (remoteSendLoop c7portal.id c7portal.mxid c8evt ⟨"@g:x"⟩
        c8threadRow.rowID c8conv.timestamp c8oracle.sendResults c8oracle.insertResults
        c8conv.parts 0 c8db (some c8threadRow)) :=
  ⟨⟨by decide, by decide, by decide, by decide, by decide⟩,
   (c8_thread_precedence c8db c7portal c8oracle c8evt ⟨"@g:x"⟩ c8conv
     ⟨"reply1", none⟩ ⟨"thread1", none⟩ c8replyRow c8threadRow rfl (by decide) rfl rfl
     rfl rfl rfl rfl (by decide) (by decide)).1⟩

/-- Claim C9: with the room created and a non-Remove avatar, a successful
Reupload returning the stored hash sends no state event and leaves
AvatarSet unchanged; a differing hash leads to exactly one
m.room.avatar SendState call (a Forbidden retry sends m.room.name, not a
second m.room.avatar). -/
theorem c9_avatar_reupload_short_circuit (p : PortalState) (bot : MatrixAPI)
    (si : Option MatrixAPI) (res1 res2 : MatrixResult) (a : Avatar) (mxc : String)
    (h : AvatarHash) (hmxid : p.mxid ≠ "") (hrem : a.remove = false) :
    (h = p.avatarHash →
      (UpdateAvatar p bot si (Except.ok (mxc, h)) res1 res2 a).calls = [] ∧
      (UpdateAvatar p bot si (Except.ok (mxc, h)) res1 res2 a).portal.avatarSet =
        p.avatarSet) ∧
    (h ≠ p.avatarHash → ¬(p.avatarID = a.id ∧ p.avatarSet) →
      ((UpdateAvatar p bot si (Except.ok (mxc, h)) res1 res2 a).calls.countP
        (fun cl => cl.eventType == EventType.stateRoomAvatar)) = 1) := by
  constructor
  · intro hh
    unfold UpdateAvatar
    by_cases hg : p.avatarID = a.id ∧ (p.avatarSet ∨ p.mxid = "")
    · rw [if_pos hg]
      exact ⟨rfl, rfl⟩
    · rw [if_neg hg]
      simp [hrem, hh]
  · intro hh hguard
    unfold UpdateAvatar
    rw [if_neg (fun hcon => hguard ⟨hcon.1, Or.resolve_right hcon.2 hmxid⟩)]
    simp only [hrem, Bool.false_eq_true, if_false]
    simp only [hh, if_false]
    exact sendRoomMeta_avatar_count p.mxid bot si "" res1 res2 hmxid

/-- Claim C9 witness: Reupload returning the stored hash 5 on a portal
with AvatarSet true sends nothing and keeps AvatarSet true. -/
theorem c9_avatar_reupload_short_circuit_witness :
    (c9portal.mxid ≠ "" ∧ (⟨"avatar-new", false⟩ : Avatar).remove = false ∧
     c9portal.avatarSet = true ∧ c9portal.avatarHash = 5) ∧
    ((UpdateAvatar c9portal ⟨"@bot:x"⟩ none (Except.ok ("mxc://x/new", 5))
        (Except.ok "$a1") (Except.ok "$a2") ⟨"avatar-new", false⟩).calls = [] ∧
     (UpdateAvatar c9portal ⟨"@bot:x"⟩ none (Except.ok ("mxc://x/new", 5))
        (Except.ok "$a1") (Except.ok "$a2") ⟨"avatar-new", false⟩).portal.avatarSet =
       c9portal.avatarSet) :=
  ⟨⟨by decide, rfl, rfl, rfl⟩,
   (c9_avatar_reupload_short_circuit c9portal ⟨"@bot:x"⟩ none (Except.ok "$a1")
     (Except.ok "$a2") ⟨"avatar-new", false⟩ "mxc://x/new" 5 (by decide) rfl).1 rfl⟩

/-- Claim C10: when the duplicate-check lookup errors, handleRemoteMessage
only logs and proceeds: with an intent, a successful conversion and a
successful reply/thread resolution it runs the send loop, attempting one
SendMessage per part — regardless of whether the store already holds a row
for the same remote id, so a duplicate outbound send is possible. -/
theorem c10_dup_check_error_still_sends (db : Database) (p : PortalState)
    (o : RemoteMessageOracle) (evt : RemoteMessageEvt) (i : MatrixAPI)
    (c : ConvertedMessage) (rel : Int) (prev : Option Message)
    (hfail : o.dupLookupFails = true) (hintent : o.intent = some i)
    (hconv : o.convert = Except.ok c)
    (hres : resolveRelatesTo db o c = Except.ok (rel, prev)) :
    handleRemoteMessage db p o evt =
      Except.ok (remoteSendLoop p.id p.mxid evt i rel c.timestamp o.sendResults
        o.insertResults c.parts 0 db prev) ∧
    (remoteSendLoop p.id p.mxid evt i rel c.timestamp o.sendResults o.insertResults
        c.parts 0 db prev).sends.length = c.parts.length := by
  constructor
  · unfold handleRemoteMessage
    rw [if_neg (by simp [hfail])]
    simp only [hintent, hconv, hres]
  · exact remoteSendLoop_sends_length p.id p.mxid evt i rel c.timestamp
      o.sendResults o.insertResults c.parts 0 db prev

/-- Claim C10 witness: the duplicate-check lookup fails while the store
already holds a bridged copy of dup1; the handler still attempts the one
send of the converted part. -/
theorem c10_dup_check_error_still_sends_witness :
    (c10oracle.dupLookupFails = true ∧
     (GetFirstPartByID c10db c10evt.id).isSome = true) ∧
    handleRemoteMessage c10db c10portal c10oracle c10evt =
      Except.ok (remoteSendLoop c10portal.id c10portal.mxid c10evt ⟨"@g:x"⟩ 0 60
        c10oracle.sendResults c10oracle.insertResults [⟨"0"⟩] 0 c10db none) :=
  ⟨⟨rfl, by decide⟩,
   (c10_dup_check_error_still_sends c10db c10portal c10oracle c10evt ⟨"@g:x"⟩
     ⟨none, none, 60, [⟨"0"⟩]⟩ 0 none rfl rfl rfl rfl).1⟩

end Bridgev2
